import Mathlib

/-!
Verification of the telegram-ygoprices-bot request pipeline (main.go).

The Go program is embedded shallowly: the string operations used by the
handler (strings.ToLower, strings.Contains, strings.Split with a single
space separator) are modelled on the character list of a String; the three
network-facing functions (fetchCardPriceByPrintTag, sendReply, and the
webhook handler) become pure functions of an explicit outcome of each
network call, and the handler additionally takes the pricing client as an
oracle and returns a trace of the pricing-client invocations and the
sendReply invocations it performs, in order.
-/

/-- A JSON value, used to model encoding/json decoding of the inbound
webhook body and the opaque interface fields of the upstream response. -/
inductive Json where
  | null : Json
  | bool (b : Bool) : Json
  | num (q : ℚ) : Json
  | str (s : String) : Json
  | arr (elems : List Json) : Json
  | obj (fields : List (String × Json)) : Json

/-- Model of strings.ToLower restricted to ASCII letters, which is all the
handler needs: the command literal it matches against is ASCII. -/
def goToLower (s : String) : String :=
  String.mk (s.data.map Char.toLower)

/-- Whether the first list of characters begins with the second. -/
def charsBeginWith : List Char → List Char → Bool
  | _, [] => true
  | [], _ :: _ => false
  | a :: as, b :: bs => a == b && charsBeginWith as bs

/-- Whether the character list has the needle as a contiguous sublist. -/
def charsContain (hay needle : List Char) : Bool :=
  match hay with
  | [] => needle.isEmpty
  | _ :: rest => charsBeginWith hay needle || charsContain rest needle

/-- Model of strings.Contains. -/
def goContains (s sub : String) : Bool :=
  charsContain s.data sub.data

/-- Helper for goSplitSpace: split a character list at every space. -/
def splitChars : List Char → List (List Char)
  | [] => [[]]
  | c :: cs =>
    if c == ' ' then [] :: splitChars cs
    else
      match splitChars cs with
      | [] => [[c]]
      | r :: rs => (c :: r) :: rs

/-- Model of strings.Split with separator " ": splits around every single
space, keeping empty fields; the empty string yields one empty field. -/
def goSplitSpace (s : String) : List String :=
  (splitChars s.data).map String.mk

/-- Wire shape of the inbound webhook body, innermost chat object. -/
structure webhookChat where
  ID : Int
deriving Repr, DecidableEq

/-- Wire shape of the inbound webhook body, message object. -/
structure webhookMessage where
  Text : String
  Chat : webhookChat
deriving Repr, DecidableEq

/-- Wire shape of the inbound webhook body (webhookReqBody in main.go). -/
structure webhookReqBody where
  Message : webhookMessage
deriving Repr, DecidableEq

/-- Innermost prices object of the upstream pricing response. Float64
fields are modelled as rationals. -/
structure ygoPrices where
  High : ℚ
  Low : ℚ
  Average : ℚ
  Shift : ℚ
  Shift3 : ℚ
  Shift7 : ℚ
  Shift21 : ℚ
  Shift30 : ℚ
  Shift90 : ℚ
  Shift180 : ℚ
  Shift365 : ℚ
  UpdatedAt : String

/-- data object inside the inner price_data of the upstream response. -/
structure ygoInnerData where
  Listings : List Json
  Prices : ygoPrices

/-- Inner price_data object of the upstream response. -/
structure ygoInnerPriceData where
  Status : String
  Data : ygoInnerData

/-- Outer price_data object of the upstream response. -/
structure ygoPriceData where
  Name : String
  PrintTag : String
  Rarity : String
  PriceData : ygoInnerPriceData

/-- data object of the upstream response. -/
structure ygoData where
  Name : String
  CardType : String
  Property : Json
  Family : String
  «Type» : String
  PriceData : ygoPriceData

/-- Top level of the upstream pricing response (main.go lines 38-72). -/
structure ygoPricesPriceForPrintTagResponse where
  Status : String
  Data : ygoData

/-- The PriceQuote entity of the data model: the three numeric fields that
are semantically meaningful to the system. -/
structure PriceQuote where
  high : ℚ
  average : ℚ
  low : ℚ
deriving Repr, DecidableEq

/-- The three meaningful numeric fields of a decoded upstream response. -/
def extractQuote (body : ygoPricesPriceForPrintTagResponse) : PriceQuote :=
  { high := body.Data.PriceData.PriceData.Data.Prices.High
    average := body.Data.PriceData.PriceData.Data.Prices.Average
    low := body.Data.PriceData.PriceData.Data.Prices.Low }

/-- Model of fmt.Sprintf with verb %.2f applied to one number: two-decimal
fixed-point formatting, rounding the value to the nearest hundredth with
ties to even, computed on the numerator and denominator directly. On
values that are exact multiples of one hundredth (the only values the
claims evaluate) every rounding convention agrees. -/
def fmt2 (q : ℚ) : String :=
  let t : ℤ := 100 * q.num
  let d : ℤ := (q.den : ℤ)
  let f : ℤ := Int.fdiv t d
  let r : ℤ := Int.fmod t d
  let c : ℤ :=
    if 2 * r < d then f
    else if d < 2 * r then f + 1
    else if f % 2 = 0 then f else f + 1
  let sign : String := if c < 0 then "-" else ""
  let n : ℕ := c.natAbs
  sign ++ toString (n / 100) ++ "." ++
    (if n % 100 < 10 then "0" else "") ++ toString (n % 100)

/-- convertYgoPricesPriceForPrintTagResponseToReply (main.go lines 133-139):
reads the three price fields and formats the reply string. -/
def convertYgoPricesPriceForPrintTagResponseToReply
    (body : ygoPricesPriceForPrintTagResponse) : String :=
  let high := body.Data.PriceData.PriceData.Data.Prices.High
  let average := body.Data.PriceData.PriceData.Data.Prices.Average
  let low := body.Data.PriceData.PriceData.Data.Prices.Low
  "Prices\nHigh :$" ++ fmt2 high ++ "\nAverage: $" ++ fmt2 average ++
    "\nLow: $" ++ fmt2 low

/-- The reply string determined by a PriceQuote alone. -/
def priceReplyOfQuote (q : PriceQuote) : String :=
  "Prices\nHigh :$" ++ fmt2 q.high ++ "\nAverage: $" ++ fmt2 q.average ++
    "\nLow: $" ++ fmt2 q.low

/-- The Go pair (pointer, error) returned by fetchCardPriceByPrintTag:
ok v models (v, nil) where v is the possibly nil pointer, and err models
(nil, e) with a non-nil error e. -/
inductive GoResult (α : Type) where
  | ok (val : Option α) : GoResult α
  | err : GoResult α
deriving Repr, DecidableEq

/-- Outcome of the outbound http.Get in the pricing client: the network
call fails, or it returns a body that either fails to decode (none) or
decodes to a response value (some). -/
inductive HttpGetOutcome where
  | failure : HttpGetOutcome
  | body (decoded : Option ygoPricesPriceForPrintTagResponse) : HttpGetOutcome

/-- fetchCardPriceByPrintTag (main.go lines 108-130) as a function of the
outcome of its one network call: returns (nil, err) on network failure,
(nil, err) on decode failure, (resp, nil) when the decoded status equals
"success", and (nil, nil) otherwise. -/
def fetchCardPriceByPrintTag (o : HttpGetOutcome) :
    GoResult ygoPricesPriceForPrintTagResponse :=
  match o with
  | .failure => .err
  | .body none => .err
  | .body (some resp) =>
    if resp.Status == "success" then .ok (some resp) else .ok none

/-- The three-way result taxonomy of the Pricing Client contract:
PriceQuote, NotFound or TransportError. -/
inductive FetchOutcome where
  | quote (q : PriceQuote) : FetchOutcome
  | notFound : FetchOutcome
  | transportError : FetchOutcome
deriving Repr, DecidableEq

/-- How the caller (webhookHandler) reads the Go pair returned by
fetchCardPriceByPrintTag: a non-nil error is a transport error, a nil
response with nil error is the not-found outcome, and a non-nil response
carries the quote. -/
def fetchOutcomeOf (o : HttpGetOutcome) : FetchOutcome :=
  match fetchCardPriceByPrintTag o with
  | .err => .transportError
  | .ok none => .notFound
  | .ok (some resp) => .quote (extractQuote resp)

/-- Spec-side contract of the Pricing Client, stated from the words of the
specification: on network failure or an undecodable body, TransportError;
on a decoded body whose status flag equals the literal success marker, a
PriceQuote built from the three numeric fields; otherwise NotFound. -/
def specFetchContract (o : HttpGetOutcome) : FetchOutcome :=
  match o with
  | .failure => .transportError
  | .body none => .transportError
  | .body (some resp) =>
    if resp.Status = "success" then
      .quote { high := resp.Data.PriceData.PriceData.Data.Prices.High
               average := resp.Data.PriceData.PriceData.Data.Prices.Average
               low := resp.Data.PriceData.PriceData.Data.Prices.Low }
    else .notFound

/-- Outcome of the outbound http.Post in sendReply: the network call fails,
or the platform responds with a status code and a status line string. -/
inductive PostOutcome where
  | failure : PostOutcome
  | response (statusCode : ℕ) (status : String) : PostOutcome

/-- sendReply (main.go lines 82-105) as a function of the outcome of its
one network call: none models a nil error return, some e a non-nil error
whose message is e. Marshalling the request body cannot fail for this
struct. A non-nil error is returned exactly when the call fails or the
status code is not http.StatusOK (200); the error text appends the
observed status line. -/
def sendReply (chatID : Int) (text : String) (o : PostOutcome) :
    Option String :=
  match chatID, text, o with
  | _, _, .failure => some "post error"
  | _, _, .response code status =>
    if code != 200 then some ("unexpected status" ++ status) else none

/-- The InboundMessage entity: decoded text and chat id of one webhook
call. -/
structure InboundMessage where
  text : String
  chatId : Int
deriving Repr, DecidableEq

/-- Trace of the observable effects of one handler run: the print tags
passed to the pricing client, in order, and the (chat id, text) pairs
passed to sendReply, in order. -/
structure HandlerTrace where
  fetchCalls : List String
  replies : List (Int × String)
deriving Repr, DecidableEq

/-- The command-processing part of webhookHandler (main.go lines 150-167),
run after a successful decode of the inbound body, with the pricing client
supplied as an oracle from print tag to its Go result pair. -/
def webhookHandler
    (fetch : String → GoResult ygoPricesPriceForPrintTagResponse)
    (msg : InboundMessage) : HandlerTrace :=
  let text := goToLower msg.text
  if goContains text "/priceprinttag" then
    let parts := goSplitSpace msg.text
    if parts.length < 2 then
      { fetchCalls := [], replies := [(msg.chatId, "Error fetching card price!")] }
    else
      let printTag := parts.getD 1 ""
      match fetch printTag with
      | .err => { fetchCalls := [printTag],
                  replies := [(msg.chatId, "Error fetching card price!")] }
      | .ok none => { fetchCalls := [printTag],
                      replies := [(msg.chatId, "Error fetching card price!")] }
      | .ok (some response) =>
        { fetchCalls := [printTag],
          replies := [(msg.chatId,
            convertYgoPricesPriceForPrintTagResponseToReply response)] }
  else
    { fetchCalls := [], replies := [(msg.chatId, "Invalid command!")] }

/-- Decode one already-seen object field into the chat struct, following
encoding/json: the id key (matched case-insensitively) must hold an
integral number fitting int64; null leaves the current value; keys other
than id are ignored. -/
def applyChatField (c : webhookChat) : String × Json → Option webhookChat
  | (k, v) =>
    if goToLower k == "id" then
      match v with
      | .num q =>
        if q.den = 1 ∧ -(2 ^ 63) ≤ q.num ∧ q.num < 2 ^ 63 then
          some { ID := q.num }
        else none
      | .null => some c
      | _ => none
    else some c

/-- Decode a JSON value into the chat struct, starting from the current
(zero) value: an object applies its fields in order, null leaves the value
unchanged, anything else is a decode error. -/
def decodeChatInto (c : webhookChat) : Json → Option webhookChat
  | .obj fields => fields.foldlM applyChatField c
  | .null => some c
  | _ => none

/-- Decode one object field into the message struct: text must hold a
string, chat recurses into the chat struct; null leaves values unchanged;
unknown keys are ignored. -/
def applyMessageField (m : webhookMessage) :
    String × Json → Option webhookMessage
  | (k, v) =>
    if goToLower k == "text" then
      match v with
      | .str s => some { m with Text := s }
      | .null => some m
      | _ => none
    else if goToLower k == "chat" then
      match decodeChatInto m.Chat v with
      | some c => some { m with Chat := c }
      | none => none
    else some m

/-- Decode a JSON value into the message struct. -/
def decodeMessageInto (m : webhookMessage) : Json → Option webhookMessage
  | .obj fields => fields.foldlM applyMessageField m
  | .null => some m
  | _ => none

/-- Decode one object field into the top-level webhook body struct. -/
def applyBodyField (b : webhookReqBody) : String × Json → Option webhookReqBody
  | (k, v) =>
    if goToLower k == "message" then
      match decodeMessageInto b.Message v with
      | some m => some { Message := m }
      | none => none
    else some b

/-- The zero value of webhookReqBody: all fields at their Go zero values. -/
def zeroWebhookReqBody : webhookReqBody :=
  { Message := { Text := "", Chat := { ID := 0 } } }

/-- Decode an inbound JSON body into webhookReqBody, following
encoding/json: fields missing from the input keep their zero values, and
a success is returned for any object regardless of which expected fields
are present. -/
def decodeWebhookReqBody : Json → Option webhookReqBody
  | .obj fields => fields.foldlM applyBodyField zeroWebhookReqBody
  | .null => some zeroWebhookReqBody
  | _ => none

/-- webhookHandler including the decode step (main.go lines 142-171): a
body that fails to decode produces no pricing call and no reply; a decoded
body is handed to the command processor. -/
def webhookEndpoint
    (fetch : String → GoResult ygoPricesPriceForPrintTagResponse)
    (body : Json) : HandlerTrace :=
  match decodeWebhookReqBody body with
  | none => { fetchCalls := [], replies := [] }
  | some b =>
    webhookHandler fetch { text := b.Message.Text, chatId := b.Message.Chat.ID }

/-- A concrete upstream response whose three price fields are 10.5, 7.25
and 3.0, used to evaluate formatting claims on concrete input. -/
def sampleYgoResponse : ygoPricesPriceForPrintTagResponse :=
  { Status := "success"
    Data :=
      { Name := "Blue-Eyes White Dragon"
        CardType := "monster"
        Property := Json.null
        Family := "light"
        «Type» := "Dragon"
        PriceData :=
          { Name := "Blue-Eyes White Dragon"
            PrintTag := "SDK-001"
            Rarity := "Ultra Rare"
            PriceData :=
              { Status := "success"
                Data :=
                  { Listings := []
                    Prices :=
                      { High := 10.5, Low := 3.0, Average := 7.25
                        Shift := 0, Shift3 := 0, Shift7 := 0, Shift21 := 0
                        Shift30 := 0, Shift90 := 0, Shift180 := 0
                        Shift365 := 0, UpdatedAt := "2020-01-01" } } } } } }

/-- A pricing oracle that always reports a transport error, used to
instantiate theorems at concrete inputs. -/
def fetchAlwaysErr : String → GoResult ygoPricesPriceForPrintTagResponse :=
  fun _ => .err

/-- A pricing oracle that always reports not found, used to instantiate
theorems at concrete inputs. -/
def fetchAlwaysNotFound : String → GoResult ygoPricesPriceForPrintTagResponse :=
  fun _ => .ok none

/-- A pricing oracle that always returns the sample response, used to
instantiate theorems at concrete inputs. -/
def fetchAlwaysSample : String → GoResult ygoPricesPriceForPrintTagResponse :=
  fun _ => .ok (some sampleYgoResponse)

/-- Evaluation of the %.2f model at 10.5: the scientific literal is first
rewritten to an explicit reduced fraction so that the kernel can compute. -/
lemma fmt2_at_ten_half : fmt2 (10.5 : ℚ) = "10.50" := by
  rw [show (10.5 : ℚ) = ⟨21, 2, by decide, by decide⟩ by
    rw [Rat.mk'_eq_divInt, Rat.divInt_eq_div]; norm_num]
  decide

/-- Evaluation of the %.2f model at 7.25. -/
lemma fmt2_at_seven_quarter : fmt2 (7.25 : ℚ) = "7.25" := by
  rw [show (7.25 : ℚ) = ⟨29, 4, by decide, by decide⟩ by
    rw [Rat.mk'_eq_divInt, Rat.divInt_eq_div]; norm_num]
  decide

/-- Evaluation of the %.2f model at 3.0. -/
lemma fmt2_at_three : fmt2 (3.0 : ℚ) = "3.00" := by
  rw [show (3.0 : ℚ) = ⟨3, 1, by decide, by decide⟩ by
    rw [Rat.mk'_eq_divInt, Rat.divInt_eq_div]; norm_num]
  decide

/-- C1: for every inbound message whose lowercased text contains
"/priceprinttag" and whose original text splits on single spaces into at
least two tokens (in particular whenever the command is followed by one
more space-delimited token), the handler invokes the pricing client
exactly once, passing the second space-delimited token of the original,
non-lowercased text verbatim. -/
theorem fetch_called_once_with_second_token
    (fetch : String → GoResult ygoPricesPriceForPrintTagResponse)
    (msg : InboundMessage)
    (hcmd : goContains (goToLower msg.text) "/priceprinttag" = true)
    (hlen : 2 ≤ (goSplitSpace msg.text).length) :
    (webhookHandler fetch msg).fetchCalls = [(goSplitSpace msg.text).getD 1 ""] := by
  have hnot : ¬ ((goSplitSpace msg.text).length < 2) := by omega
  simp only [webhookHandler]
  rw [if_pos hcmd, if_neg hnot]
  split <;> rfl

/-- Witness for C1 at a mixed-case command with a mixed-case argument: the
second token of the original text is passed with its case preserved. -/
theorem fetch_called_once_with_second_token_witness :
    (webhookHandler fetchAlwaysNotFound
      { text := "/PricePrintTag Sdk-001", chatId := 5 }).fetchCalls = ["Sdk-001"] :=
  (fetch_called_once_with_second_token fetchAlwaysNotFound
    { text := "/PricePrintTag Sdk-001", chatId := 5 }
    (by decide) (by decide)).trans (by decide)

/-- C2: for every successful upstream response, the reply is the template
string with the three price fields formatted as %.2f, and in particular a
response with high 10.5, average 7.25 and low 3.0 yields exactly the
string with 10.50, 7.25 and 3.00 substituted. -/
theorem success_reply_format :
    (∀ r : ygoPricesPriceForPrintTagResponse,
      convertYgoPricesPriceForPrintTagResponseToReply r =
        "Prices\nHigh :$" ++ fmt2 r.Data.PriceData.PriceData.Data.Prices.High ++
          "\nAverage: $" ++ fmt2 r.Data.PriceData.PriceData.Data.Prices.Average ++
          "\nLow: $" ++ fmt2 r.Data.PriceData.PriceData.Data.Prices.Low) ∧
    (∀ r : ygoPricesPriceForPrintTagResponse,
      r.Data.PriceData.PriceData.Data.Prices.High = 10.5 →
      r.Data.PriceData.PriceData.Data.Prices.Average = 7.25 →
      r.Data.PriceData.PriceData.Data.Prices.Low = 3.0 →
      convertYgoPricesPriceForPrintTagResponseToReply r =
        "Prices\nHigh :$10.50\nAverage: $7.25\nLow: $3.00") := by
  constructor
  · intro r; rfl
  · intro r h1 h2 h3
    simp only [convertYgoPricesPriceForPrintTagResponseToReply, h1, h2, h3,
      fmt2_at_ten_half, fmt2_at_seven_quarter, fmt2_at_three]
    rfl

/-- Witness for C2: the sample response with prices 10.5, 7.25 and 3.0
produces exactly the expected reply string. -/
theorem success_reply_format_witness :
    convertYgoPricesPriceForPrintTagResponseToReply sampleYgoResponse =
      "Prices\nHigh :$10.50\nAverage: $7.25\nLow: $3.00" :=
  success_reply_format.2 sampleYgoResponse rfl rfl rfl

/-- C3: for every inbound message whose lowercased text does not contain
"/priceprinttag", the handler sends exactly the reply "Invalid command!"
and never invokes the pricing client. -/
theorem invalid_command_reply
    (fetch : String → GoResult ygoPricesPriceForPrintTagResponse)
    (msg : InboundMessage)
    (hcmd : goContains (goToLower msg.text) "/priceprinttag" = false) :
    (webhookHandler fetch msg).replies = [(msg.chatId, "Invalid command!")] ∧
    (webhookHandler fetch msg).fetchCalls = [] := by
  have hnot : ¬ (goContains (goToLower msg.text) "/priceprinttag" = true) := by
    simp [hcmd]
  constructor <;> (simp only [webhookHandler]; rw [if_neg hnot])

/-- Witness for C3 at an ordinary message. -/
theorem invalid_command_reply_witness :
    (webhookHandler fetchAlwaysErr { text := "hello", chatId := 42 }).replies =
      [(42, "Invalid command!")] ∧
    (webhookHandler fetchAlwaysErr { text := "hello", chatId := 42 }).fetchCalls = [] :=
  invalid_command_reply fetchAlwaysErr { text := "hello", chatId := 42 } (by decide)

/-- C4: for every inbound message whose lowercased text contains the
command but whose original text splits on single spaces into fewer than
two tokens, the handler sends exactly "Error fetching card price!" and
never invokes the pricing client. -/
theorem missing_argument_reply
    (fetch : String → GoResult ygoPricesPriceForPrintTagResponse)
    (msg : InboundMessage)
    (hcmd : goContains (goToLower msg.text) "/priceprinttag" = true)
    (hlen : (goSplitSpace msg.text).length < 2) :
    (webhookHandler fetch msg).replies = [(msg.chatId, "Error fetching card price!")] ∧
    (webhookHandler fetch msg).fetchCalls = [] := by
  constructor <;> (simp only [webhookHandler]; rw [if_pos hcmd, if_pos hlen])

/-- Witness for C4 at the bare command with no argument. -/
theorem missing_argument_reply_witness :
    (webhookHandler fetchAlwaysErr { text := "/priceprinttag", chatId := 9 }).replies =
      [(9, "Error fetching card price!")] ∧
    (webhookHandler fetchAlwaysErr { text := "/priceprinttag", chatId := 9 }).fetchCalls = [] :=
  missing_argument_reply fetchAlwaysErr { text := "/priceprinttag", chatId := 9 }
    (by decide) (by decide)

/-- C5: the pricing client is a three-way partition of the outcome of its
network call: network failure or an undecodable body yields the transport
error result, a decoded body with status "success" yields the quote built
from the three numeric price fields, and any other status yields the
not-found result; moreover the reply built from a successful response
depends only on the extracted three-field quote, all other decoded
structure being discarded. -/
theorem fetch_three_way_partition :
    (∀ o : HttpGetOutcome, fetchOutcomeOf o = specFetchContract o) ∧
    (∀ r : ygoPricesPriceForPrintTagResponse,
      convertYgoPricesPriceForPrintTagResponseToReply r =
        priceReplyOfQuote (extractQuote r)) := by
  constructor
  · intro o
    cases o with
    | failure => rfl
    | body d =>
      cases d with
      | none => rfl
      | some r =>
        by_cases h : r.Status = "success"
        · simp [fetchOutcomeOf, fetchCardPriceByPrintTag, specFetchContract, h,
            extractQuote]
        · have hb : (r.Status == "success") = false := by
            simp [h]
          simp [fetchOutcomeOf, fetchCardPriceByPrintTag, specFetchContract, h, hb]
  · intro r; rfl

/-- C6: whenever the pricing client returns the not-found outcome (nil
response, nil error) or the transport-error outcome (non-nil error), the
handler sends exactly the reply "Error fetching card price!": both result
kinds collapse to the same user-facing message. -/
theorem failure_outcomes_collapse_to_error_reply
    (fetch : String → GoResult ygoPricesPriceForPrintTagResponse)
    (msg : InboundMessage)
    (hcmd : goContains (goToLower msg.text) "/priceprinttag" = true)
    (hlen : 2 ≤ (goSplitSpace msg.text).length)
    (hf : fetch ((goSplitSpace msg.text).getD 1 "") = .ok none ∨
          fetch ((goSplitSpace msg.text).getD 1 "") = .err) :
    (webhookHandler fetch msg).replies = [(msg.chatId, "Error fetching card price!")] := by
  have hnot : ¬ ((goSplitSpace msg.text).length < 2) := by omega
  simp only [webhookHandler]
  rw [if_pos hcmd, if_neg hnot]
  rcases hf with hf | hf <;> rw [hf]

/-- Witness for C6 at a not-found pricing outcome. -/
theorem failure_outcomes_collapse_to_error_reply_witness :
    (webhookHandler fetchAlwaysNotFound
      { text := "/priceprinttag SDK-001", chatId := 42 }).replies =
      [(42, "Error fetching card price!")] :=
  failure_outcomes_collapse_to_error_reply fetchAlwaysNotFound
    { text := "/priceprinttag SDK-001", chatId := 42 }
    (by decide) (by decide) (Or.inl rfl)

/-- C7: sendReply returns the nil error exactly when the platform responds
with HTTP status 200; on a network failure or any other status code it
returns a non-nil error, and for a non-200 status the error message
carries the observed status line. -/
theorem sendReply_ok_iff_status200 (chatID : Int) (text : String) (o : PostOutcome) :
    (sendReply chatID text o = none ↔ ∃ st, o = .response 200 st) ∧
    (o = .failure → ∃ e, sendReply chatID text o = some e) ∧
    (∀ code st, o = .response code st → code ≠ 200 →
      sendReply chatID text o = some ("unexpected status" ++ st)) := by
  refine ⟨?_, ?_, ?_⟩
  · cases o with
    | failure => simp [sendReply]
    | response code st =>
      by_cases h : code = 200
      · subst h; simp [sendReply]
      · have hb : (code != 200) = true := by simpa using h
        simp [sendReply, hb, h]
  · intro h; subst h; exact ⟨_, rfl⟩
  · intro code st ho hne
    subst ho
    have hb : (code != 200) = true := by simpa using hne
    simp [sendReply, hb]

/-- Witness for C7 at a 404 response: the returned error message appends
the observed status line to the fixed text. -/
theorem sendReply_ok_iff_status200_witness :
    sendReply 42 "hello" (.response 404 "404 Not Found") =
      some "unexpected status404 Not Found" :=
  ((sendReply_ok_iff_status200 42 "hello" (.response 404 "404 Not Found")).2.2
    404 "404 Not Found" rfl (by decide)).trans (by decide)

/-- C8 counterexample: the claim that the pricing client is never invoked
with an empty print tag is false. For the message text consisting of the
command followed by a single trailing space, the split has two fields and
the second is the empty string, so the pricing client is invoked with the
empty print tag. -/
theorem fetch_called_with_empty_tag_counterexample :
    (webhookHandler fetchAlwaysErr
      { text := "/priceprinttag ", chatId := 7 }).fetchCalls = [""] := by
  decide

/-- C8 amended: the handler rejects only a missing second field, not an
empty one; for any message whose text is the command followed by a
trailing space, the pricing client is invoked exactly once with the empty
string as print tag, so the non-emptiness precondition does not hold at
every invocation. -/
theorem empty_print_tag_possible
    (fetch : String → GoResult ygoPricesPriceForPrintTagResponse) (c : Int) :
    (webhookHandler fetch { text := "/priceprinttag ", chatId := c }).fetchCalls = [""] := by
  simp only [webhookHandler]
  rw [if_pos (by decide), if_neg (by decide)]
  split <;> rfl

/-- C9: in every branch of the handler, every reply it sends is addressed
to the chat id of the inbound message, unchanged. -/
theorem chat_id_propagated_unchanged
    (fetch : String → GoResult ygoPricesPriceForPrintTagResponse)
    (msg : InboundMessage) :
    ((webhookHandler fetch msg).replies).all (fun p => p.1 == msg.chatId) = true := by
  simp only [webhookHandler]
  repeat' split
  all_goals simp

/-- C10: the empty JSON object decodes successfully to the zero-valued
webhook body (text empty, chat id zero), and the endpoint then follows the
invalid-command branch, sending "Invalid command!" addressed to chat id
zero while invoking no pricing lookup. -/
theorem empty_object_decodes_to_zero_and_invalid_command
    (fetch : String → GoResult ygoPricesPriceForPrintTagResponse) :
    decodeWebhookReqBody (Json.obj []) = some zeroWebhookReqBody ∧
    webhookEndpoint fetch (Json.obj []) =
      { fetchCalls := [], replies := [(0, "Invalid command!")] } :=
  ⟨rfl, rfl⟩
